import Mathlib

/-!
Verification of the configuration module `config.py` of the DCASE2021
repository.  The module runs top to bottom when first imported: it assigns
four path strings, starts a MATLAB engine session, computes the directory of
the module file, registers the MATLAB script directory with the engine,
assigns fixed signal constants, derives the label scheme, and finally stores
the mapping returned by the collaborator `get_class_name_dict`.

The embedding models the module load as a function of an environment that
supplies the results of the three external calls (engine start, path
registration on the engine, class-name lookup) together with the resolved
module directory.  Each external call may fail, in which case the load
aborts with that error, mirroring Python exception propagation out of the
module body.  The load also records a trace of the side-effecting steps in
source order.  The float literal `frame_length = 0.1` is modelled as the
rational 1/10: the module stores the literal and never computes with it, so
the rational model preserves every equality the module exposes.
-/

namespace DCASE2021

/-- Path literal from `config.py` line 12. -/
def data_folder_path : String := "/home/pans/datasets/DCASE2021/foa_dev/dev-train"

/-- Path literal from `config.py` line 13. -/
def stft_folder_path : String := "/home/pans/datasets/DCASE2021/stft_foa_dev/dev-train"

/-- Path literal from `config.py` line 14. -/
def csv_file_path : String := "/home/pans/datasets/DCASE2021/metadata_dev/dev-train"

/-- Path literal from `config.py` line 15. -/
def matlab_path : String := "/home/pans/source/DCASE2021/multiple-target-tracking-master"

/-- Sample rate, `config.py` line 23. -/
def fs : Nat := 24000

/-- Analysis window length, `config.py` line 24. -/
def window_size : Nat := 2400

/-- Window overlap, `config.py` line 25. -/
def window_overlap : Nat := 1200

/-- FFT length, `config.py` line 26. -/
def nfft : Nat := 2400

/-- Frame duration in seconds, `config.py` line 27 (float literal 0.1). -/
def frame_length : ℚ := 1 / 10

/-- Number of classes, `config.py` line 29. -/
def num_classes : Nat := 13

/-- Sentinel class index, `config.py` line 30: `num_classes - 1`. -/
def undefined_classID : Nat := num_classes - 1

/-- Opaque handle of a running MATLAB engine session. -/
abbrev Engine := Nat

/-- The external world the module load interacts with: the result of
`engine.start_matlab()`, the behaviour of `eng.addpath`, the result of
`get_class_name_dict()`, and the resolved directory of the module file. -/
structure Env where
  startEngine : Except String Engine
  addpath : Engine → String → Except String Unit
  getClassNameDict : Except String (List (Nat × String))
  thisFilePath : String

/-- The module-level names bound once `config.py` has executed. -/
structure Config where
  data_folder_path : String
  stft_folder_path : String
  csv_file_path : String
  matlab_path : String
  eng : Engine
  this_file_path : String
  fs : Nat
  window_size : Nat
  window_overlap : Nat
  nfft : Nat
  frame_length : ℚ
  num_classes : Nat
  undefined_classID : Nat
  class_name_dict : List (Nat × String)
  deriving DecidableEq

/-- Side-effecting steps of the module body, in the order they appear. -/
inductive Event where
  | assignPaths
  | startEngine
  | computeDir
  | addPath (p : String)
  | assignConstants
  | requestClassNames
  deriving DecidableEq, Repr

/-- The configuration record produced by a fully successful load. -/
def mkConfig (engHandle : Engine) (tfp : String) (d : List (Nat × String)) : Config :=
  { data_folder_path := data_folder_path
    stft_folder_path := stft_folder_path
    csv_file_path := csv_file_path
    matlab_path := matlab_path
    eng := engHandle
    this_file_path := tfp
    fs := fs
    window_size := window_size
    window_overlap := window_overlap
    nfft := nfft
    frame_length := frame_length
    num_classes := num_classes
    undefined_classID := undefined_classID
    class_name_dict := d }

/-- Trace of a load that runs every step of the module body. -/
def fullTrace : List Event :=
  [Event.assignPaths, Event.startEngine, Event.computeDir,
   Event.addPath matlab_path, Event.assignConstants, Event.requestClassNames]

/-- Executing the module body of `config.py` top to bottom: assign the path
strings (lines 12-15), start the engine (line 18), compute the module
directory (line 19), register `matlab_path` with the engine (line 20),
assign the signal constants and the label counts (lines 23-30), and store
the collaborator mapping (line 32).  An error raised by an external call
aborts the load at that point and is returned unchanged, with the trace of
the steps attempted so far. -/
def loadConfig (env : Env) : List Event × Except String Config :=
  match env.startEngine with
  | Except.error e => ([Event.assignPaths, Event.startEngine], Except.error e)
  | Except.ok engHandle =>
    match env.addpath engHandle matlab_path with
    | Except.error e =>
        ([Event.assignPaths, Event.startEngine, Event.computeDir,
          Event.addPath matlab_path], Except.error e)
    | Except.ok _ =>
      match env.getClassNameDict with
      | Except.error e =>
          ([Event.assignPaths, Event.startEngine, Event.computeDir,
            Event.addPath matlab_path, Event.assignConstants,
            Event.requestClassNames], Except.error e)
      | Except.ok d =>
          (fullTrace, Except.ok (mkConfig engHandle env.thisFilePath d))

/-- Does an association list provide a name for every index below `n`? -/
def coversKeys (d : List (Nat × String)) (n : Nat) : Bool :=
  (List.range n).all (fun i => d.any (fun pr => pr.1 == i))

/-- A 13-entry class-name mapping, one name per index 0..12. -/
def dict13 : List (Nat × String) :=
  [(0, "c0"), (1, "c1"), (2, "c2"), (3, "c3"), (4, "c4"), (5, "c5"),
   (6, "c6"), (7, "c7"), (8, "c8"), (9, "c9"), (10, "c10"), (11, "c11"),
   (12, "c12")]

/-- A 10-entry class-name mapping missing indices 10, 11 and 12. -/
def dictTen : List (Nat × String) :=
  [(0, "c0"), (1, "c1"), (2, "c2"), (3, "c3"), (4, "c4"), (5, "c5"),
   (6, "c6"), (7, "c7"), (8, "c8"), (9, "c9")]

/-- An environment where every external call succeeds. -/
def envOk : Env :=
  { startEngine := Except.ok 0
    addpath := fun _ _ => Except.ok ()
    getClassNameDict := Except.ok dict13
    thisFilePath := "/home/pans/source/DCASE2021" }

/-- A second all-success environment whose engine session is a different
(fresh) process but whose collaborator returns the same mapping. -/
def envOk2 : Env :=
  { startEngine := Except.ok 1
    addpath := fun _ _ => Except.ok ()
    getClassNameDict := Except.ok dict13
    thisFilePath := "/home/pans/source/DCASE2021" }

/-- An environment where `engine.start_matlab()` raises. -/
def envStartFail : Env :=
  { startEngine := Except.error "engine start failure"
    addpath := fun _ _ => Except.ok ()
    getClassNameDict := Except.ok dict13
    thisFilePath := "/home/pans/source/DCASE2021" }

/-- An environment where `eng.addpath` raises while engine start and the
class-name collaborator would both succeed. -/
def envAddpathFail : Env :=
  { startEngine := Except.ok 0
    addpath := fun _ _ => Except.error "addpath failure"
    getClassNameDict := Except.ok dict13
    thisFilePath := "/home/pans/source/DCASE2021" }

/-- An environment whose collaborator returns only ten names. -/
def envTen : Env :=
  { startEngine := Except.ok 0
    addpath := fun _ _ => Except.ok ()
    getClassNameDict := Except.ok dictTen
    thisFilePath := "/home/pans/source/DCASE2021" }

/-- The configuration produced by loading under `envOk`. -/
def cfgOk : Config := mkConfig 0 "/home/pans/source/DCASE2021" dict13

/-- The configuration produced by loading under `envOk2`. -/
def cfgOk2 : Config := mkConfig 1 "/home/pans/source/DCASE2021" dict13

/-- The configuration produced by loading under `envTen`. -/
def cfgTen : Config := mkConfig 0 "/home/pans/source/DCASE2021" dictTen

/-- Inversion: a successful load means all three external calls succeeded,
the trace is the full trace, and the configuration is the record built from
the engine handle, the module directory, and the collaborator mapping. -/
lemma loadConfig_ok_inv (env : Env) (tr : List Event) (c : Config)
    (h : loadConfig env = (tr, Except.ok c)) :
    ∃ engHandle d,
      env.startEngine = Except.ok engHandle ∧
      env.addpath engHandle matlab_path = Except.ok () ∧
      env.getClassNameDict = Except.ok d ∧
      tr = fullTrace ∧ c = mkConfig engHandle env.thisFilePath d := by
  unfold loadConfig at h
  split at h
  next e hs => simp at h
  next engHandle hs =>
    split at h
    next e ha => simp at h
    next u ha =>
      split at h
      next e hd => simp at h
      next d hd =>
        simp only [Prod.mk.injEq, Except.ok.injEq] at h
        exact ⟨engHandle, d, hs, by cases u; exact ha, hd, h.1.symm, h.2.symm⟩

/-- C1: for any successful load, `undefined_classID` equals
`num_classes - 1` by construction; with the fixed `num_classes = 13` the
loaded value is 12. -/
theorem C1_undefined_classID_is_last (env : Env) (tr : List Event) (c : Config)
    (h : loadConfig env = (tr, Except.ok c)) :
    c.undefined_classID = c.num_classes - 1 ∧ c.num_classes = 13 ∧
      c.undefined_classID = 12 := by
  obtain ⟨engHandle, d, -, -, -, -, hc⟩ := loadConfig_ok_inv env tr c h
  subst hc
  exact ⟨rfl, rfl, rfl⟩

/-- Witness for C1 at the concrete all-success environment `envOk`. -/
theorem C1_undefined_classID_is_last_witness :
    cfgOk.undefined_classID = cfgOk.num_classes - 1 ∧ cfgOk.num_classes = 13 ∧
      cfgOk.undefined_classID = 12 :=
  C1_undefined_classID_is_last envOk fullTrace cfgOk rfl

/-- C2 counterexample: with a collaborator returning only ten names for
`num_classes = 13`, the load succeeds anyway and stores the partial mapping,
so a mapping missing indices does not cause a load failure. -/
theorem C2_counterexample :
    loadConfig envTen = (fullTrace, Except.ok cfgTen) ∧
    cfgTen.num_classes = 13 ∧
    cfgTen.class_name_dict.length = 10 ∧
    coversKeys cfgTen.class_name_dict cfgTen.num_classes = false :=
  ⟨rfl, rfl, rfl, by decide⟩

/-- C2 amended: the module performs no validation of the collaborator
mapping: whenever the engine start, the path registration and the
collaborator call succeed, the load succeeds and stores the returned mapping
unchanged as `class_name_dict`, regardless of how many indices it covers. -/
theorem C2_no_dict_validation (env : Env) (engHandle : Engine)
    (d : List (Nat × String))
    (hs : env.startEngine = Except.ok engHandle)
    (ha : env.addpath engHandle matlab_path = Except.ok ())
    (hd : env.getClassNameDict = Except.ok d) :
    loadConfig env = (fullTrace, Except.ok (mkConfig engHandle env.thisFilePath d)) := by
  unfold loadConfig
  simp only [hs, ha, hd]

/-- Witness for the amended C2 at the ten-name environment. -/
theorem C2_no_dict_validation_witness :
    loadConfig envTen =
      (fullTrace, Except.ok (mkConfig 0 "/home/pans/source/DCASE2021" dictTen)) :=
  C2_no_dict_validation envTen 0 dictTen rfl rfl rfl

/-- C3: if the engine session start raises, the load aborts with that very
error and no configuration record is observable: initialization is
all-or-nothing. -/
theorem C3_start_failure_nothing_loaded (env : Env) (e : String)
    (hs : env.startEngine = Except.error e) :
    (loadConfig env).2 = Except.error e ∧
      ∀ tr c, loadConfig env ≠ (tr, Except.ok c) := by
  have hload : loadConfig env = ([Event.assignPaths, Event.startEngine], Except.error e) := by
    unfold loadConfig
    rw [hs]
  refine ⟨by rw [hload], fun tr c hcontra => ?_⟩
  rw [hload] at hcontra
  exact absurd (congrArg Prod.snd hcontra) (by simp)

/-- Witness for C3 at the concrete failing-start environment. -/
theorem C3_start_failure_nothing_loaded_witness :
    (loadConfig envStartFail).2 = Except.error "engine start failure" :=
  (C3_start_failure_nothing_loaded envStartFail "engine start failure" rfl).1

/-- C4: two successful loads agree on every observable value (the four path
strings, the module directory, the five signal constants, `num_classes`,
`undefined_classID` and the class-name mapping) whenever the collaborator
returns the same mapping in both runs and the module file lives in the same
place, even if the two engine sessions are distinct fresh processes. -/
theorem C4_load_twice_same_observables (env1 env2 : Env) (tr1 tr2 : List Event)
    (c1 c2 : Config)
    (h1 : loadConfig env1 = (tr1, Except.ok c1))
    (h2 : loadConfig env2 = (tr2, Except.ok c2))
    (hdict : env1.getClassNameDict = env2.getClassNameDict)
    (hfile : env1.thisFilePath = env2.thisFilePath) :
    c1.data_folder_path = c2.data_folder_path ∧
    c1.stft_folder_path = c2.stft_folder_path ∧
    c1.csv_file_path = c2.csv_file_path ∧
    c1.matlab_path = c2.matlab_path ∧
    c1.this_file_path = c2.this_file_path ∧
    c1.fs = c2.fs ∧ c1.window_size = c2.window_size ∧
    c1.window_overlap = c2.window_overlap ∧ c1.nfft = c2.nfft ∧
    c1.frame_length = c2.frame_length ∧
    c1.num_classes = c2.num_classes ∧
    c1.undefined_classID = c2.undefined_classID ∧
    c1.class_name_dict = c2.class_name_dict := by
  obtain ⟨g1, d1, -, -, hd1, -, hc1⟩ := loadConfig_ok_inv env1 tr1 c1 h1
  obtain ⟨g2, d2, -, -, hd2, -, hc2⟩ := loadConfig_ok_inv env2 tr2 c2 h2
  have hdd : d1 = d2 := by
    apply Except.ok.inj
    rw [← hd1, hdict, hd2]
  subst hc1; subst hc2; subst hdd
  simp [mkConfig, hfile]

/-- Witness for C4 with two environments whose engine handles differ. -/
theorem C4_load_twice_same_observables_witness :
    cfgOk.data_folder_path = cfgOk2.data_folder_path ∧
    cfgOk.stft_folder_path = cfgOk2.stft_folder_path ∧
    cfgOk.csv_file_path = cfgOk2.csv_file_path ∧
    cfgOk.matlab_path = cfgOk2.matlab_path ∧
    cfgOk.this_file_path = cfgOk2.this_file_path ∧
    cfgOk.fs = cfgOk2.fs ∧ cfgOk.window_size = cfgOk2.window_size ∧
    cfgOk.window_overlap = cfgOk2.window_overlap ∧ cfgOk.nfft = cfgOk2.nfft ∧
    cfgOk.frame_length = cfgOk2.frame_length ∧
    cfgOk.num_classes = cfgOk2.num_classes ∧
    cfgOk.undefined_classID = cfgOk2.undefined_classID ∧
    cfgOk.class_name_dict = cfgOk2.class_name_dict :=
  C4_load_twice_same_observables envOk envOk2 fullTrace fullTrace cfgOk cfgOk2
    rfl rfl rfl rfl

/-- C5: every successful load performs exactly the six steps in source
order: assign the paths, start the engine, compute the module directory,
append `matlab_path` to the engine search path, assign the constants,
request the class-name mapping; in particular exactly one engine session is
started. -/
theorem C5_load_step_order (env : Env) (tr : List Event) (c : Config)
    (h : loadConfig env = (tr, Except.ok c)) :
    tr = [Event.assignPaths, Event.startEngine, Event.computeDir,
          Event.addPath matlab_path, Event.assignConstants,
          Event.requestClassNames] ∧
    tr.count Event.startEngine = 1 := by
  obtain ⟨engHandle, d, -, -, -, htr, -⟩ := loadConfig_ok_inv env tr c h
  subst htr
  exact ⟨rfl, by decide⟩

/-- Witness for C5 at the all-success environment. -/
theorem C5_load_step_order_witness :
    fullTrace = [Event.assignPaths, Event.startEngine, Event.computeDir,
          Event.addPath matlab_path, Event.assignConstants,
          Event.requestClassNames] ∧
    fullTrace.count Event.startEngine = 1 :=
  C5_load_step_order envOk fullTrace cfgOk rfl

/-- C6 counterexample: under `envAddpathFail` the load raises even though
neither the engine session start nor the class-name collaborator raised: the
failure comes from the `eng.addpath` registration call, so an error is not
raised only if engine start or the collaborator raises one. -/
theorem C6_counterexample :
    (loadConfig envAddpathFail).2 = Except.error "addpath failure" ∧
    envAddpathFail.startEngine = Except.ok 0 ∧
    envAddpathFail.getClassNameDict = Except.ok dict13 :=
  ⟨rfl, rfl, rfl⟩

/-- C6 amended: loading raises an error if and only if the engine session
start, the engine path-append registration, or the class-name collaborator
raises one, and whichever error is raised first aborts the load and is
propagated to the caller unchanged: nothing is caught or retried. -/
theorem C6_error_iff_external_failure (env : Env) :
    ((∃ e, (loadConfig env).2 = Except.error e) ↔
      ((∃ e, env.startEngine = Except.error e) ∨
       (∃ engHandle e, env.startEngine = Except.ok engHandle ∧
          env.addpath engHandle matlab_path = Except.error e) ∨
       (∃ e, env.getClassNameDict = Except.error e))) ∧
    (∀ e, env.startEngine = Except.error e →
      (loadConfig env).2 = Except.error e) ∧
    (∀ engHandle e, env.startEngine = Except.ok engHandle →
      env.addpath engHandle matlab_path = Except.error e →
      (loadConfig env).2 = Except.error e) ∧
    (∀ engHandle e, env.startEngine = Except.ok engHandle →
      env.addpath engHandle matlab_path = Except.ok () →
      env.getClassNameDict = Except.error e →
      (loadConfig env).2 = Except.error e) := by
  have hstart : ∀ e, env.startEngine = Except.error e →
      (loadConfig env).2 = Except.error e := by
    intro e hs
    unfold loadConfig
    simp only [hs]
  have haddp : ∀ engHandle e, env.startEngine = Except.ok engHandle →
      env.addpath engHandle matlab_path = Except.error e →
      (loadConfig env).2 = Except.error e := by
    intro engHandle e hs ha
    unfold loadConfig
    simp only [hs, ha]
  have hdict : ∀ engHandle e, env.startEngine = Except.ok engHandle →
      env.addpath engHandle matlab_path = Except.ok () →
      env.getClassNameDict = Except.error e →
      (loadConfig env).2 = Except.error e := by
    intro engHandle e hs ha hd
    unfold loadConfig
    simp only [hs, ha, hd]
  refine ⟨⟨?_, ?_⟩, hstart, haddp, hdict⟩
  · rintro ⟨e, he⟩
    cases hs : env.startEngine with
    | error e2 => exact Or.inl ⟨e2, rfl⟩
    | ok engHandle =>
      cases ha : env.addpath engHandle matlab_path with
      | error e2 => exact Or.inr (Or.inl ⟨engHandle, e2, rfl, ha⟩)
      | ok u =>
        cases hd : env.getClassNameDict with
        | error e2 => exact Or.inr (Or.inr ⟨e2, rfl⟩)
        | ok d =>
          exfalso
          have hok := C2_no_dict_validation env engHandle d hs
            (by cases u; exact ha) hd
          rw [hok] at he
          exact absurd he (by simp)
  · rintro (⟨e, hs⟩ | ⟨engHandle, e, hs, ha⟩ | ⟨e, hd⟩)
    · exact ⟨e, hstart e hs⟩
    · exact ⟨e, haddp engHandle e hs ha⟩
    · cases hs : env.startEngine with
      | error e2 => exact ⟨e2, hstart e2 hs⟩
      | ok engHandle =>
        cases ha : env.addpath engHandle matlab_path with
        | error e2 => exact ⟨e2, haddp engHandle e2 hs ha⟩
        | ok u => exact ⟨e, hdict engHandle e hs (by cases u; exact ha) hd⟩

/-- Witness for the amended C6: the addpath-propagation clause applied to
the concrete failing-addpath environment. -/
theorem C6_error_iff_external_failure_witness :
    (loadConfig envAddpathFail).2 = Except.error "addpath failure" :=
  (C6_error_iff_external_failure envAddpathFail).2.2.1 0 "addpath failure" rfl rfl

/-- C7: the fixed constants satisfy `window_overlap < window_size` and
`nfft >= window_size`, i.e. 1200 < 2400 and 2400 >= 2400. -/
theorem C7_window_inequalities :
    window_overlap < window_size ∧ nfft ≥ window_size ∧
    window_overlap = 1200 ∧ window_size = 2400 ∧ nfft = 2400 := by
  decide

/-- C8: every successful load yields exactly the default literal constants
`fs = 24000`, `window_size = 2400`, `window_overlap = 1200`, `nfft = 2400`
and `frame_length = 0.1` (modelled as the rational 1/10). -/
theorem C8_default_constants (env : Env) (tr : List Event) (c : Config)
    (h : loadConfig env = (tr, Except.ok c)) :
    c.fs = 24000 ∧ c.window_size = 2400 ∧ c.window_overlap = 1200 ∧
    c.nfft = 2400 ∧ c.frame_length = 1 / 10 := by
  obtain ⟨engHandle, d, -, -, -, -, hc⟩ := loadConfig_ok_inv env tr c h
  subst hc
  refine ⟨rfl, rfl, rfl, rfl, rfl⟩

/-- Witness for C8 at the all-success environment. -/
theorem C8_default_constants_witness :
    cfgOk.fs = 24000 ∧ cfgOk.window_size = 2400 ∧ cfgOk.window_overlap = 1200 ∧
    cfgOk.nfft = 2400 ∧ cfgOk.frame_length = 1 / 10 :=
  C8_default_constants envOk fullTrace cfgOk rfl

/-- C9: during a successful load the collaborator is called exactly once
(the trace holds exactly one request event), and the mapping it returned is
stored unchanged as `class_name_dict`, with no validation, filtering or
transformation of its keys or values. -/
theorem C9_dict_stored_unchanged (env : Env) (tr : List Event) (c : Config)
    (d : List (Nat × String))
    (h : loadConfig env = (tr, Except.ok c))
    (hd : env.getClassNameDict = Except.ok d) :
    c.class_name_dict = d ∧ tr.count Event.requestClassNames = 1 := by
  obtain ⟨engHandle, d2, -, -, hd2, htr, hc⟩ := loadConfig_ok_inv env tr c h
  have hdd : d2 = d := by
    apply Except.ok.inj
    rw [← hd2, hd]
  subst hc; subst htr; subst hdd
  exact ⟨rfl, by decide⟩

/-- Witness for C9 at the all-success environment and its 13-name mapping. -/
theorem C9_dict_stored_unchanged_witness :
    cfgOk.class_name_dict = dict13 ∧
    fullTrace.count Event.requestClassNames = 1 :=
  C9_dict_stored_unchanged envOk fullTrace cfgOk dict13 rfl rfl

/-- C10: the fixed constants satisfy the exact equalities
`nfft = window_size` and `window_overlap * 2 = window_size` (an exact 50
percent overlap), stronger than the inequalities of the spec. -/
theorem C10_exact_overlap_relations :
    nfft = window_size ∧ window_overlap * 2 = window_size := by
  decide
